import Mathlib

/-!
Shallow embedding of the content-moderation pipeline
(src/services/contentModerator.ts, src/services/geminiService.ts).

Modelling conventions:
* JS strings are modelled as `List Char` (one entry per Unicode scalar);
  string constants that are only carried as data (category names, reasoning,
  recommendations) are modelled as Lean `String`.
* JS numbers are modelled as exact rationals (ℚ).  All numeric literals in
  the source (0.2, 0.3, 0.5, 0.8, 0.9, 1.0) are exactly representable in
  binary floating point or only ever compared against counts, so the
  rational model agrees with the float semantics on every comparison used
  by the claims.
* The TypeScript cast `geminiResponse.severity as 'low' | ...` performs no
  runtime check, so `severity` is modelled as a plain `String` in both the
  classifier output and the final verdict.
* Asynchrony is irrelevant to the claims: the single awaited external call
  is modelled by passing the classifier as a function argument, plus an
  instrumentation Bool recording whether that call was reached.
-/

/-- The request type (src/types/index.ts `ContentModerationRequest`). -/
structure ContentModerationRequest where
  content : List Char
  userId : Option String
  platform : Option String

/-- Raw classifier output (src/types/index.ts `GeminiResponse`); `severity`
is an untrusted string. -/
structure GeminiResponse where
  isProblematic : Bool
  confidence : ℚ
  categories : List String
  reasoning : String
  severity : String

/-- Final verdict (src/types/index.ts `ContentModerationResponse`).  The
`severity` field is a plain string because the source only casts, never
validates. -/
structure ContentModerationResponse where
  isProblematic : Bool
  confidence : ℚ
  categories : List String
  reasoning : String
  severity : String
  recommendations : List String

/-- The JS `\s` / `trim` whitespace class (ECMA-262 WhiteSpace and
LineTerminator code points). -/
def jsWhitespace (c : Char) : Bool :=
  c == ' ' || c == Char.ofNat 9 || c == Char.ofNat 10 || c == Char.ofNat 11 ||
  c == Char.ofNat 12 || c == Char.ofNat 13 || c == Char.ofNat 0xa0 ||
  c == Char.ofNat 0x1680 || (0x2000 ≤ c.toNat && c.toNat ≤ 0x200a) ||
  c == Char.ofNat 0x2028 || c == Char.ofNat 0x2029 || c == Char.ofNat 0x202f ||
  c == Char.ofNat 0x205f || c == Char.ofNat 0x3000 || c == Char.ofNat 0xfeff

/-- JS `String.prototype.trim` on the character-list model. -/
def jsTrim (l : List Char) : List Char :=
  ((l.dropWhile jsWhitespace).reverse.dropWhile jsWhitespace).reverse

/-- Length of the run of characters equal to `c` at the head of the list. -/
def runLen (c : Char) : List Char → Nat
  | [] => 0
  | d :: rest => if d = c then runLen c rest + 1 else 0

/-- The JS regex `.` (no `s` flag): any character except the four
LineTerminator code points LF, CR, U+2028, U+2029. -/
def regexDot (c : Char) : Bool :=
  !(c == Char.ofNat 10 || c == Char.ofNat 13 || c == Char.ofNat 0x2028 ||
    c == Char.ofNat 0x2029)

/-- The test `/(.)\1{9,}/.test(content)` from contentModerator.ts line 61:
some character matched by `.` is followed by at least 9 more copies of
itself. -/
def hasRepeatedCharRun : List Char → Bool
  | [] => false
  | c :: rest => (regexDot c && decide (9 ≤ runLen c rest)) || hasRepeatedCharRun rest

/-- JS `content.split(/\s+/)`: chunks between maximal whitespace runs, with
an empty chunk at either end when the string starts or ends with
whitespace.  `skipping` is true while consuming a whitespace run whose
chunk boundary has already been emitted. -/
def splitWsGo (skipping : Bool) : List Char → List Char → List (List Char)
  | [], acc => [acc.reverse]
  | c :: rest, acc =>
    if jsWhitespace c then
      if skipping then splitWsGo true rest acc
      else acc.reverse :: splitWsGo true rest []
    else splitWsGo false rest (c :: acc)

/-- The token list `content.toLowerCase().split(/\s+/)` from
contentModerator.ts line 74. -/
def contentWords (content : List Char) : List (List Char) :=
  splitWsGo false (content.map Char.toLower) []

/-- One step of building the `wordFrequency` object: increment the count of
`w`, inserting it with count 1 if absent. -/
def bumpFreq : List (List Char × Nat) → List Char → List (List Char × Nat)
  | [], w => [(w, 1)]
  | (k, n) :: rest, w =>
    if k = w then (k, n + 1) :: rest else (k, n) :: bumpFreq rest w

/-- The `wordFrequency` map of contentModerator.ts lines 76-81: counts of
tokens longer than 2 characters, as an insertion-ordered association
list. -/
def wordFreq (words : List (List Char)) : List (List Char × Nat) :=
  words.foldl (fun m w => if 2 < w.length then bumpFreq m w else m) []

/-- JS `Math.max(...Object.values(m))`: `none` models the empty spread,
where `Math.max()` returns -Infinity. -/
def maxFreqValues : List (List Char × Nat) → Option Nat
  | [] => none
  | (_, n) :: rest =>
    some (match maxFreqValues rest with
          | none => n
          | some m => Nat.max n m)

/-- The repetition-ratio check of contentModerator.ts lines 74-98, as the
Bool deciding whether the spam verdict is returned.  When the frequency
map is empty, `Math.max()` is -Infinity in JS and the ratio comparison
below is false, which the `none` branch reproduces. -/
def repetitionCheck (content : List Char) : Bool :=
  let words := contentWords content
  if 10 < words.length then
    let wordFrequency := wordFreq words
    match maxFreqValues wordFrequency with
    | none => false
    | some maxFrequency =>
      decide ((maxFrequency : ℚ) / (words.length : ℚ) > 3/10) &&
        decide (10 < words.length)
  else false

/-- The character class of the special-character regex on
contentModerator.ts line 101. -/
def specialChars : List Char :=
  ['!', '@', '#', '$', '%', '^', '&', '*', '(', ')', '_', '+', '=',
   '[', ']', Char.ofNat 123, Char.ofNat 125, '|', ';', Char.ofNat 39,
   ':', Char.ofNat 34, ',', '.', '/', '<', '>', '?', '~', Char.ofNat 96]

/-- The `specialCharCount` of contentModerator.ts line 101. -/
def specialCharCount (content : List Char) : Nat :=
  (content.filter (fun c => specialChars.contains c)).length

/-- The special-character density check of contentModerator.ts lines
101-114, as the Bool deciding whether its spam verdict is returned. -/
def specialCharCheck (content : List Char) : Bool :=
  decide (((specialCharCount content : ℚ) / (content.length : ℚ)) > 1/5) &&
    decide (50 < content.length)

/-- Verdict returned for empty trimmed content (contentModerator.ts lines
37-46). -/
def emptyContentVerdict : ContentModerationResponse :=
  { isProblematic := true
    confidence := 1
    categories := ["empty_content"]
    reasoning := "Content is empty"
    severity := "low"
    recommendations := ["Please provide meaningful content"] }

/-- Verdict returned for over-long content (contentModerator.ts lines
48-57). -/
def excessiveLengthVerdict : ContentModerationResponse :=
  { isProblematic := true
    confidence := 8/10
    categories := ["excessive_length"]
    reasoning := "Content exceeds maximum length limit"
    severity := "medium"
    recommendations := ["Please shorten your content to under 10,000 characters"] }

/-- Verdict returned for a repeated-character run (contentModerator.ts
lines 61-70). -/
def repeatedCharVerdict : ContentModerationResponse :=
  { isProblematic := true
    confidence := 9/10
    categories := ["spam"]
    reasoning := "Content matches spam patterns - repeated characters"
    severity := "high"
    recommendations := ["Please avoid spam-like content patterns"] }

/-- Verdict returned by the repetition-ratio check (contentModerator.ts
lines 88-97). -/
def repetitionVerdict : ContentModerationResponse :=
  { isProblematic := true
    confidence := 8/10
    categories := ["spam"]
    reasoning := "Content shows excessive repetition patterns"
    severity := "medium"
    recommendations := ["Please vary your content and avoid excessive repetition"] }

/-- Verdict returned by the special-character density check
(contentModerator.ts lines 105-114). -/
def specialCharVerdict : ContentModerationResponse :=
  { isProblematic := true
    confidence := 7/10
    categories := ["spam"]
    reasoning := "Content contains excessive special characters"
    severity := "medium"
    recommendations := ["Please reduce the use of special characters"] }

/-- The non-problematic baseline (contentModerator.ts lines 116-123). -/
def passVerdict : ContentModerationResponse :=
  { isProblematic := false
    confidence := 1/10
    categories := []
    reasoning := "Basic validation passed"
    severity := "low"
    recommendations := [] }

/-- `performBasicValidation` (contentModerator.ts lines 33-124): the
heuristic checks in source order, first match wins. -/
def performBasicValidation (content : List Char) : ContentModerationResponse :=
  let trimmedContent := jsTrim content
  if trimmedContent.length = 0 then emptyContentVerdict
  else if 10000 < trimmedContent.length then excessiveLengthVerdict
  else if hasRepeatedCharRun content then repeatedCharVerdict
  else if repetitionCheck content then repetitionVerdict
  else if specialCharCheck content then specialCharVerdict
  else passVerdict

/-- The list `apiErrorCategories` of contentModerator.ts line 140. -/
def apiErrorCategories : List String :=
  ["api_rate_limit", "api_auth_error", "api_server_error", "api_error"]

/-- `categories.some(cat => apiErrorCategories.includes(cat))`
(contentModerator.ts line 141). -/
def hasApiErrorCategory (categories : List String) : Bool :=
  categories.any (fun cat => apiErrorCategories.contains cat)

/-- `getRecommendationsForCategories` (contentModerator.ts lines 180-204),
with the pushes in source order. -/
def getRecommendationsForCategories (categories : List String) : List String :=
  (if categories.contains "hate_speech" then
    ["Consider using more inclusive language"] else []) ++
  (if categories.contains "harassment" then
    ["Please be respectful in your communication"] else []) ++
  (if categories.contains "violence" then
    ["Avoid content that promotes violence"] else []) ++
  (if categories.contains "misinformation" then
    ["Please verify facts before sharing"] else []) ++
  (if categories.contains "spam" then
    ["Avoid repetitive or promotional content"] else [])

/-- `applyBusinessRules` (contentModerator.ts lines 126-178).  The
sequence of mutations of `finalResponse` is modelled by the chain
`r0` to `r4`. -/
def applyBusinessRules (geminiResponse : GeminiResponse)
    (request : ContentModerationRequest) : ContentModerationResponse :=
  let r0 : ContentModerationResponse :=
    { isProblematic := geminiResponse.isProblematic
      confidence := geminiResponse.confidence
      categories := geminiResponse.categories
      reasoning := geminiResponse.reasoning
      severity := geminiResponse.severity
      recommendations := [] }
  if hasApiErrorCategory r0.categories then
    { r0 with isProblematic := false
              recommendations := r0.recommendations ++
                ["Content moderation temporarily unavailable. Please try again later."] }
  else
    let r1 :=
      if r0.severity = "critical" then
        { r0 with isProblematic := true
                  confidence := max r0.confidence (9/10)
                  recommendations := r0.recommendations ++
                    ["Immediate content removal required"] }
      else r0
    let r2 :=
      if r1.severity = "high" then
        { r1 with isProblematic := true
                  confidence := max r1.confidence (8/10)
                  recommendations := r1.recommendations ++
                    ["Content should be reviewed by human moderators"] }
      else r1
    let r3 :=
      if request.platform = some "youtube" ∧ r2.categories.contains "explicit_content" then
        { r2 with severity := "high"
                  recommendations := r2.recommendations ++
                    ["Consider age-restricting this content"] }
      else r2
    let r4 :=
      if r3.confidence < 1/2 ∧ r3.severity = "low" then
        { r3 with isProblematic := false }
      else r3
    { r4 with recommendations := r4.recommendations ++
        getRecommendationsForCategories r4.categories }

/-- `moderateContent` (contentModerator.ts lines 17-31).  The classifier is
passed as a function; the Bool output records whether the AI stage was
invoked. -/
def moderateContent
    (classify : ContentModerationRequest → GeminiResponse)
    (request : ContentModerationRequest) :
    ContentModerationResponse × Bool :=
  let basicValidation := performBasicValidation request.content
  if basicValidation.isProblematic then (basicValidation, false)
  else
    let geminiResponse := classify request
    (applyBusinessRules geminiResponse request, true)

/-- Shape of the object produced by `JSON.parse` in
geminiService.ts line 113; `none` models an absent field (and, for
`categories`, a value that is not an array). -/
structure ParsedJson where
  isProblematic : Option Bool
  confidence : Option ℚ
  categories : Option (List String)
  reasoning : Option String
  severity : Option String

/-- The success branch of `parseGeminiResponse` (geminiService.ts lines
115-121).  The JS `||` defaults trigger on the falsy values `undefined`,
`false`, `0` and the empty string, which the `Option` plus empty-string
cases reproduce. -/
def parseGeminiResponse (parsed : ParsedJson) : GeminiResponse :=
  { isProblematic := parsed.isProblematic.getD false
    confidence := max 0 (min 1 (parsed.confidence.getD 0))
    categories := parsed.categories.getD []
    reasoning :=
      match parsed.reasoning with
      | none => "No reasoning provided"
      | some s => if s = "" then "No reasoning provided" else s
    severity :=
      match parsed.severity with
      | none => "low"
      | some s => if s = "" then "low" else s }

/-- The fallback of `parseGeminiResponse` when `JSON.parse` throws
(geminiService.ts lines 125-131). -/
def parseFailureResponse : GeminiResponse :=
  { isProblematic := false
    confidence := 0
    categories := []
    reasoning := "Failed to parse AI response"
    severity := "low" }

/-- Classification of a thrown error in `GeminiService.moderateContent`:
either an object carrying a numeric `status` field, or anything else
(missing credentials, network failure, non-object throw). -/
inductive ApiFailure
  | withStatus (status : Int)
  | noStatus

/-- The generic fallback classification (geminiService.ts lines 60-66). -/
def genericApiErrorResponse : GeminiResponse :=
  { isProblematic := false
    confidence := 1/2
    categories := ["api_error"]
    reasoning := "API error occurred. Content could not be analyzed."
    severity := "low" }

/-- The catch-block ladder of `GeminiService.moderateContent`
(geminiService.ts lines 22-67). -/
def geminiFailureResponse : ApiFailure → GeminiResponse
  | ApiFailure.withStatus status =>
    if status = 429 then
      { isProblematic := false
        confidence := 1/2
        categories := ["api_rate_limit"]
        reasoning := "API rate limit exceeded. Content could not be analyzed."
        severity := "low" }
    else if status = 403 ∨ status = 401 then
      { isProblematic := false
        confidence := 1/2
        categories := ["api_auth_error"]
        reasoning := "API authentication failed. Content could not be analyzed."
        severity := "low" }
    else if 500 ≤ status then
      { isProblematic := false
        confidence := 1/2
        categories := ["api_server_error"]
        reasoning := "API server error. Content could not be analyzed."
        severity := "low" }
    else genericApiErrorResponse
  | ApiFailure.noStatus => genericApiErrorResponse

/-- Outcome of the single external call made by
`GeminiService.moderateContent`: text that parsed, text that failed to
parse, or a thrown error. -/
inductive GeminiCallResult
  | parsed (p : ParsedJson)
  | parseFailure
  | failed (f : ApiFailure)

/-- `GeminiService.moderateContent` (geminiService.ts lines 13-68) as a
function of the call outcome. -/
def geminiModerateContent : GeminiCallResult → GeminiResponse
  | GeminiCallResult.parsed p => parseGeminiResponse p
  | GeminiCallResult.parseFailure => parseFailureResponse
  | GeminiCallResult.failed f => geminiFailureResponse f

/-- Condition of the platform-override rule (contentModerator.ts line 164),
stated on the classification; the earlier rules never modify the
categories, so this is the condition the normalizer actually tests. -/
def platformOverrideFires (g : GeminiResponse)
    (request : ContentModerationRequest) : Prop :=
  request.platform = some "youtube" ∧ g.categories.contains "explicit_content"

instance (g : GeminiResponse) (request : ContentModerationRequest) :
    Decidable (platformOverrideFires g request) := by
  unfold platformOverrideFires
  infer_instance

/-- Value of `finalResponse.severity` at the point of the low-confidence
suppression rule (contentModerator.ts line 170): the input severity unless
the platform override has rewritten it to high. -/
def suppressionSeverity (g : GeminiResponse)
    (request : ContentModerationRequest) : String :=
  if platformOverrideFires g request then "high" else g.severity

/-- Modelled from the claim text of C6: some single character repeated at
least 10 times consecutively, with no restriction on which character (the
regex in the source restricts the character to those matched by `.`). -/
def specRepeatedRun : List Char → Bool
  | [] => false
  | c :: rest => decide (9 ≤ runLen c rest) || specRepeatedRun rest

/-- Modelled from the claim text of C7: the failure-kind-to-category map
(429 to api_rate_limit, 401/403 to api_auth_error, at least 500 to
api_server_error, anything else to api_error). -/
def specFailureCategory : ApiFailure → String
  | ApiFailure.withStatus status =>
    if status = 429 then "api_rate_limit"
    else if status = 403 ∨ status = 401 then "api_auth_error"
    else if 500 ≤ status then "api_server_error"
    else "api_error"
  | ApiFailure.noStatus => "api_error"

/-- Concrete content made of the letter x, ten consecutive newlines and
the letter y. -/
def newlineRunContent : List Char :=
  'x' :: (List.replicate 10 (Char.ofNat 10) ++ ['y'])

/-- Concrete content of 10001 copies of the letter a. -/
def longAContent : List Char := List.replicate 10001 'a'

/-- Concrete content of twelve single-letter whitespace-separated tokens. -/
def shortTokensContent : List Char :=
  ['a', ' ', 'b', ' ', 'c', ' ', 'd', ' ', 'e', ' ', 'f', ' ', 'g', ' ',
   'h', ' ', 'i', ' ', 'j', ' ', 'k', ' ', 'l']

/-- A classification as produced by a stub that bypasses the adapter and
hands the normalizer an out-of-range confidence directly. -/
def stubClassification : GeminiResponse :=
  { isProblematic := false
    confidence := 3/2
    categories := []
    reasoning := "stub"
    severity := "low" }

theorem dropWhile_eq_self_of_forall {p : Char → Bool} {l : List Char}
    (h : ∀ c ∈ l, p c = false) : l.dropWhile p = l := by
  cases l with
  | nil => rfl
  | cons c t => simp [List.dropWhile_cons, h c (List.mem_cons_self c t)]

theorem jsTrim_eq_self_of_no_ws {l : List Char}
    (h : ∀ c ∈ l, jsWhitespace c = false) : jsTrim l = l := by
  unfold jsTrim
  rw [dropWhile_eq_self_of_forall h,
      dropWhile_eq_self_of_forall (fun c hc => h c (List.mem_reverse.mp hc)),
      List.reverse_reverse]

theorem performBasicValidation_empty {content : List Char}
    (h : (jsTrim content).length = 0) :
    performBasicValidation content = emptyContentVerdict := by
  unfold performBasicValidation
  dsimp only
  rw [if_pos h]

theorem performBasicValidation_long {content : List Char}
    (h : 10000 < (jsTrim content).length) :
    performBasicValidation content = excessiveLengthVerdict := by
  unfold performBasicValidation
  dsimp only
  rw [if_neg (by omega : ¬ ((jsTrim content).length = 0)), if_pos h]

theorem wordFreq_eq_nil {words : List (List Char)}
    (h : ∀ w ∈ words, w.length ≤ 2) : wordFreq words = [] := by
  induction words with
  | nil => rfl
  | cons w ws ih =>
    have hw : ¬ (2 < w.length) := by
      have := h w (List.mem_cons_self w ws)
      omega
    have hstep : wordFreq (w :: ws) = wordFreq ws := by
      unfold wordFreq
      rw [List.foldl_cons, if_neg hw]
    rw [hstep]
    exact ih (fun x hx => h x (List.mem_cons_of_mem w hx))

set_option maxHeartbeats 1000000 in
theorem applyBusinessRules_confidence_cases (g : GeminiResponse)
    (req : ContentModerationRequest) :
    (applyBusinessRules g req).confidence = g.confidence ∨
    (applyBusinessRules g req).confidence = max g.confidence (9/10) ∨
    (applyBusinessRules g req).confidence = max g.confidence (8/10) ∨
    (applyBusinessRules g req).confidence = max (max g.confidence (9/10)) (8/10) := by
  unfold applyBusinessRules
  dsimp only
  split_ifs <;> simp

set_option maxHeartbeats 1000000 in
theorem applyBusinessRules_confidence_no_floor (g : GeminiResponse)
    (req : ContentModerationRequest)
    (h1 : g.severity ≠ "critical") (h2 : g.severity ≠ "high") :
    (applyBusinessRules g req).confidence = g.confidence := by
  unfold applyBusinessRules
  dsimp only
  split_ifs <;> simp_all

set_option maxHeartbeats 1000000 in
theorem applyBusinessRules_severity_no_platform (g : GeminiResponse)
    (req : ContentModerationRequest)
    (h : ¬ (req.platform = some "youtube" ∧
            g.categories.contains "explicit_content" = true)) :
    (applyBusinessRules g req).severity = g.severity := by
  unfold applyBusinessRules
  dsimp only
  split_ifs <;> simp_all

theorem applyBusinessRules_confidence_bounds (g : GeminiResponse)
    (req : ContentModerationRequest)
    (h0 : 0 ≤ g.confidence) (h1 : g.confidence ≤ 1) :
    0 ≤ (applyBusinessRules g req).confidence ∧
    (applyBusinessRules g req).confidence ≤ 1 := by
  rcases applyBusinessRules_confidence_cases g req with h | h | h | h <;>
    rw [h] <;> constructor <;>
    norm_num [le_max_iff, max_le_iff, h0, h1]

theorem geminiModerateContent_confidence_bounds (o : GeminiCallResult) :
    0 ≤ (geminiModerateContent o).confidence ∧
    (geminiModerateContent o).confidence ≤ 1 := by
  cases o with
  | parsed p =>
    constructor
    · exact le_max_left 0 _
    · exact max_le (by norm_num) (min_le_left _ _)
  | parseFailure =>
    constructor <;> norm_num [geminiModerateContent, parseFailureResponse]
  | failed f =>
    cases f with
    | withStatus s =>
      simp only [geminiModerateContent, geminiFailureResponse]
      split_ifs <;> constructor <;> norm_num [genericApiErrorResponse]
    | noStatus =>
      constructor <;>
        norm_num [geminiModerateContent, geminiFailureResponse,
          genericApiErrorResponse]

/-- Claim C1 (amended): every classification actually produced by the
adapter (parsed text, parse failure, or call failure) has confidence in
[0,1], and the normalizer keeps the final verdict confidence in [0,1] for
all of them; in the parse path a missing confidence defaults to 0 and
out-of-range values such as 3/2 or -1 are clipped into [0,1].  The
clipping happens only inside the adapter parse, not in the normalizer
(see the counterexample for a stub bypassing the adapter). -/
theorem adapter_confidence_in_unit_interval :
    (∀ (o : GeminiCallResult) (req : ContentModerationRequest),
      0 ≤ (geminiModerateContent o).confidence ∧
      (geminiModerateContent o).confidence ≤ 1 ∧
      0 ≤ (applyBusinessRules (geminiModerateContent o) req).confidence ∧
      (applyBusinessRules (geminiModerateContent o) req).confidence ≤ 1) ∧
    (∀ b cat r s,
      (parseGeminiResponse ⟨b, none, cat, r, s⟩).confidence = 0) ∧
    (∀ b cat r s,
      (parseGeminiResponse ⟨b, some (3/2), cat, r, s⟩).confidence = 1) ∧
    (∀ b cat r s,
      (parseGeminiResponse ⟨b, some (-1), cat, r, s⟩).confidence = 0) := by
  refine ⟨fun o req => ?_, fun b cat r s => ?_, fun b cat r s => ?_,
    fun b cat r s => ?_⟩
  · obtain ⟨ha, hb⟩ := geminiModerateContent_confidence_bounds o
    obtain ⟨hc, hd⟩ := applyBusinessRules_confidence_bounds _ req ha hb
    exact ⟨ha, hb, hc, hd⟩
  · simp [parseGeminiResponse]
  · simp only [parseGeminiResponse, Option.getD_some]
    rw [min_eq_left (by norm_num : (1:ℚ) ≤ 3/2)]
    exact max_eq_right (by norm_num)
  · simp only [parseGeminiResponse, Option.getD_some]
    rw [min_eq_right (by norm_num : (-1:ℚ) ≤ 1)]
    exact max_eq_left (by norm_num)

/-- Claim C1, counterexample: a stubbed adapter that returns confidence
3/2 at the classification level produces a final verdict whose confidence
is 3/2, outside [0,1] — the normalizer never clamps. -/
theorem normalizer_confidence_not_clamped :
    (applyBusinessRules stubClassification ⟨['h'], none, none⟩).confidence = 3/2 ∧
    ¬ ((applyBusinessRules stubClassification ⟨['h'], none, none⟩).confidence ≤ 1) := by
  have h : (applyBusinessRules stubClassification ⟨['h'], none, none⟩).confidence = 3/2 :=
    applyBusinessRules_confidence_no_floor stubClassification ⟨['h'], none, none⟩
      (by decide) (by decide)
  exact ⟨h, by rw [h]; norm_num⟩

/-- Claim C2 (amended): the parser defaults severity to low when the field
is missing or empty, but any other string passes through unvalidated, and
the normalizer either copies the classification severity or rewrites it to
high — so the final severity is not confined to the 4-value enum. -/
theorem severity_default_and_passthrough :
    (∀ b c cat r,
      (parseGeminiResponse ⟨b, c, cat, r, none⟩).severity = "low") ∧
    (∀ b c cat r,
      (parseGeminiResponse ⟨b, c, cat, r, some ""⟩).severity = "low") ∧
    (∀ b c cat r s, s ≠ "" →
      (parseGeminiResponse ⟨b, c, cat, r, some s⟩).severity = s) ∧
    (∀ (g : GeminiResponse) (req : ContentModerationRequest),
      (applyBusinessRules g req).severity = g.severity ∨
      (applyBusinessRules g req).severity = "high") := by
  refine ⟨fun b c cat r => rfl, fun b c cat r => rfl,
    fun b c cat r s hs => ?_, fun g req => ?_⟩
  · simp [parseGeminiResponse, hs]
  · by_cases hp : req.platform = some "youtube" ∧
        g.categories.contains "explicit_content" = true
    · unfold applyBusinessRules
      dsimp only
      split_ifs <;> simp_all
    · exact Or.inl (applyBusinessRules_severity_no_platform g req hp)

/-- Claim C2, witness for the amended claim at concrete inputs. -/
theorem severity_default_and_passthrough_witness :
    (parseGeminiResponse ⟨some false, some 1, some [], some "r", none⟩).severity = "low" ∧
    (parseGeminiResponse
      ⟨some false, some 1, some [], some "r", some "unrecognized"⟩).severity = "unrecognized" :=
  ⟨severity_default_and_passthrough.1 _ _ _ _,
   severity_default_and_passthrough.2.2.1 _ _ _ _ "unrecognized" (by decide)⟩

/-- Claim C2, counterexample: a classifier severity string "extreme"
reaches the final verdict unvalidated, so the final severity is not one of
the four enum values and is not defaulted to low. -/
theorem severity_enum_counterexample :
    (applyBusinessRules
      (geminiModerateContent (GeminiCallResult.parsed
        ⟨some true, some 1, some [], some "r", some "extreme"⟩))
      ⟨['h'], none, none⟩).severity = "extreme" ∧
    "extreme" ∉ ["low", "medium", "high", "critical"] := by
  constructor
  · rw [applyBusinessRules_severity_no_platform _ _ (by simp)]
    rfl
  · decide

/-- Claim C3: when any category is one of the four api_* categories, the
normalizer forces isProblematic to false regardless of the input value,
returns with exactly the fixed unavailability recommendation, and copies
every other field unchanged; in particular such verdicts never carry the
severity-floor or human-moderation recommendations. -/
theorem api_error_override (g : GeminiResponse) (req : ContentModerationRequest)
    (h : hasApiErrorCategory g.categories = true) :
    applyBusinessRules g req =
      { isProblematic := false
        confidence := g.confidence
        categories := g.categories
        reasoning := g.reasoning
        severity := g.severity
        recommendations :=
          ["Content moderation temporarily unavailable. Please try again later."] } ∧
    "Content should be reviewed by human moderators" ∉
      (applyBusinessRules g req).recommendations ∧
    "Immediate content removal required" ∉
      (applyBusinessRules g req).recommendations := by
  have heq : applyBusinessRules g req =
      { isProblematic := false
        confidence := g.confidence
        categories := g.categories
        reasoning := g.reasoning
        severity := g.severity
        recommendations :=
          ["Content moderation temporarily unavailable. Please try again later."] } := by
    unfold applyBusinessRules
    dsimp only
    rw [if_pos h]
    simp
  refine ⟨heq, ?_, ?_⟩ <;> rw [heq] <;> simp

/-- Claim C3, witness: a classification that claims isProblematic with
category api_error is normalized to a non-problematic verdict carrying
only the unavailability recommendation. -/
theorem api_error_override_witness :
    applyBusinessRules ⟨true, 1/2, ["api_error"], "r", "low"⟩ ⟨['h'], none, none⟩ =
      { isProblematic := false
        confidence := 1/2
        categories := ["api_error"]
        reasoning := "r"
        severity := "low"
        recommendations :=
          ["Content moderation temporarily unavailable. Please try again later."] } :=
  (api_error_override ⟨true, 1/2, ["api_error"], "r", "low"⟩ ⟨['h'], none, none⟩
    (by decide)).1

/-- Claim C4: content whose trimmed length is 0 short-circuits the
pipeline with the empty_content verdict (isProblematic true, severity low,
confidence 1), and the classifier is never invoked (the result holds for
every classifier and the invocation flag is false). -/
theorem empty_content_short_circuit
    (classify : ContentModerationRequest → GeminiResponse)
    (req : ContentModerationRequest)
    (h : (jsTrim req.content).length = 0) :
    moderateContent classify req = (emptyContentVerdict, false) := by
  unfold moderateContent
  dsimp only
  rw [performBasicValidation_empty h]
  rfl

/-- Claim C4, witness at the empty content. -/
theorem empty_content_short_circuit_witness :
    moderateContent (fun _ => parseFailureResponse) ⟨[], none, none⟩ =
      (emptyContentVerdict, false) :=
  empty_content_short_circuit _ _ (by decide)

/-- Claim C5: content whose trimmed length exceeds 10000 short-circuits
the pipeline with the excessive_length verdict (severity medium,
confidence 8/10) without invoking the classifier; the length check runs
before the repeated-character check, so this covers content that is both
too long and full of repeated characters. -/
theorem excessive_length_short_circuit
    (classify : ContentModerationRequest → GeminiResponse)
    (req : ContentModerationRequest)
    (h : 10000 < (jsTrim req.content).length) :
    moderateContent classify req = (excessiveLengthVerdict, false) := by
  unfold moderateContent
  dsimp only
  rw [performBasicValidation_long h]
  rfl

/-- Claim C5, witness at 10001 copies of the letter a, which also contains
a repeated-character run: the excessive_length verdict wins. -/
theorem excessive_length_short_circuit_witness :
    moderateContent (fun _ => parseFailureResponse) ⟨longAContent, none, none⟩ =
      (excessiveLengthVerdict, false) := by
  apply excessive_length_short_circuit
  show 10000 < (jsTrim longAContent).length
  rw [jsTrim_eq_self_of_no_ws (fun c hc => by
    rw [List.eq_of_mem_replicate hc]
    decide)]
  rw [longAContent, List.length_replicate]
  omega

/-- Claim C6 (amended): content that passes the empty and length checks
and contains some character matched by the regex wildcard (that is, any
character other than the four line terminators) repeated at least 10
times consecutively gets the spam verdict with severity high and
confidence 9/10. -/
theorem repeated_char_run_spam (content : List Char)
    (h0 : (jsTrim content).length ≠ 0)
    (h1 : (jsTrim content).length ≤ 10000)
    (h2 : hasRepeatedCharRun content = true) :
    performBasicValidation content = repeatedCharVerdict := by
  unfold performBasicValidation
  dsimp only
  rw [if_neg h0, if_neg (by omega : ¬ (10000 < (jsTrim content).length)), if_pos h2]

/-- Claim C6, witness at twelve consecutive copies of the letter a. -/
theorem repeated_char_run_spam_witness :
    performBasicValidation (List.replicate 12 'a') = repeatedCharVerdict :=
  repeated_char_run_spam _ (by decide) (by decide) (by decide)

/-- Claim C6, counterexample: ten consecutive newlines are a single
character repeated 10 times, the content passes the empty and length
checks, yet the validator does not flag it at all (the regex `.` does not
match line terminators), contradicting the claim that any repeated
character triggers the spam/high verdict. -/
theorem repeated_newline_run_not_flagged :
    specRepeatedRun newlineRunContent = true ∧
    (jsTrim newlineRunContent).length = 12 ∧
    (performBasicValidation newlineRunContent).isProblematic = false ∧
    (performBasicValidation newlineRunContent).severity = "low" := by
  have hsp : specialCharCheck newlineRunContent = false := by
    have h : decide (50 < newlineRunContent.length) = false := by decide
    rw [specialCharCheck, h, Bool.and_false]
  have hpass : performBasicValidation newlineRunContent = passVerdict := by
    unfold performBasicValidation
    dsimp only
    rw [if_neg (by decide : ¬ ((jsTrim newlineRunContent).length = 0)),
        if_neg (by decide : ¬ (10000 < (jsTrim newlineRunContent).length)),
        if_neg (by decide : ¬ (hasRepeatedCharRun newlineRunContent = true)),
        if_neg (by decide : ¬ (repetitionCheck newlineRunContent = true)),
        if_neg (by simp [hsp] : ¬ (specialCharCheck newlineRunContent = true))]
  refine ⟨by decide, by decide, ?_, ?_⟩ <;> rw [hpass] <;> rfl

/-- Claim C7: every external-call failure is absorbed into a well-formed
classification with isProblematic false, confidence 1/2, severity low and
exactly one api_* category given by the failure kind: status 429 maps to
api_rate_limit, status 401 or 403 to api_auth_error, status at least 500
to api_server_error, and any other failure (no status, unexpected status,
missing credentials) to api_error. -/
theorem classify_failure_fallback (f : ApiFailure) :
    (geminiFailureResponse f).isProblematic = false ∧
    (geminiFailureResponse f).confidence = 1/2 ∧
    (geminiFailureResponse f).severity = "low" ∧
    (geminiFailureResponse f).categories = [specFailureCategory f] ∧
    specFailureCategory f ∈ apiErrorCategories := by
  cases f with
  | noStatus =>
    simp [geminiFailureResponse, specFailureCategory, genericApiErrorResponse,
      apiErrorCategories]
  | withStatus s =>
    simp only [geminiFailureResponse, specFailureCategory]
    split_ifs <;>
      simp [genericApiErrorResponse, apiErrorCategories]

/-- Claim C8: writing the severity at the suppression step as
`suppressionSeverity` (the input severity unless the platform override
rewrote it to high), a problematic classification with no api_* category
is forced non-problematic exactly when that severity is low and the
confidence is below 1/2; otherwise it stays problematic. -/
theorem low_confidence_suppression (g : GeminiResponse)
    (req : ContentModerationRequest)
    (hapi : hasApiErrorCategory g.categories = false)
    (hprob : g.isProblematic = true) :
    (applyBusinessRules g req).isProblematic =
      (if suppressionSeverity g req = "low" ∧ g.confidence < 1/2
       then false else true) := by
  unfold applyBusinessRules suppressionSeverity platformOverrideFires
  dsimp only
  rw [if_neg (by simp [hapi])]
  split_ifs <;> simp_all
  exact absurd (‹g.severity = "low" ∧ g.confidence < 2⁻¹›).2
    (not_lt.mpr ‹2⁻¹ ≤ g.confidence›)

/-- Claim C8, witness at the spec scenario: isProblematic true, severity
medium, confidence 1/5, no categories — suppression does not apply and
the verdict stays problematic. -/
theorem low_confidence_suppression_witness :
    (applyBusinessRules ⟨true, 1/5, [], "r", "medium"⟩
      ⟨['h'], none, none⟩).isProblematic = true := by
  rw [low_confidence_suppression ⟨true, 1/5, [], "r", "medium"⟩
    ⟨['h'], none, none⟩ (by decide) rfl]
  simp [suppressionSeverity, platformOverrideFires]

/-- Claim C9: the normalizer returns a verdict whose categories and
reasoning are exactly those of the input classification; no rule adds,
removes or rewrites them. -/
theorem normalizer_preserves_categories_reasoning
    (g : GeminiResponse) (req : ContentModerationRequest) :
    (applyBusinessRules g req).categories = g.categories ∧
    (applyBusinessRules g req).reasoning = g.reasoning := by
  unfold applyBusinessRules
  dsimp only
  split_ifs <;> simp

/-- Claim C10: when the content passes the empty, length and
repeated-character checks and splits into more than 10 tokens none longer
than 2 characters, the frequency map over long tokens is empty, the
repetition-ratio check does not fire (JS `Math.max()` of an empty spread
is -Infinity, which fails the ratio comparison), and the validator never
returns the repetition verdict. -/
theorem short_tokens_repetition_check_safe (content : List Char)
    (h0 : (jsTrim content).length ≠ 0)
    (h1 : (jsTrim content).length ≤ 10000)
    (h2 : hasRepeatedCharRun content = false)
    (h3 : 10 < (contentWords content).length)
    (h4 : ∀ w ∈ contentWords content, w.length ≤ 2) :
    wordFreq (contentWords content) = [] ∧
    repetitionCheck content = false ∧
    (performBasicValidation content).reasoning ≠
      "Content shows excessive repetition patterns" := by
  have hfreq : wordFreq (contentWords content) = [] := wordFreq_eq_nil h4
  have hrep : repetitionCheck content = false := by
    unfold repetitionCheck
    dsimp only
    rw [hfreq]
    simp [maxFreqValues]
  refine ⟨hfreq, hrep, ?_⟩
  unfold performBasicValidation
  dsimp only
  rw [if_neg h0, if_neg (by omega : ¬ (10000 < (jsTrim content).length)),
      if_neg (by simp [h2] : ¬ (hasRepeatedCharRun content = true)),
      if_neg (by simp [hrep] : ¬ (repetitionCheck content = true))]
  by_cases hsp : specialCharCheck content = true
  · rw [if_pos hsp]
    simp [specialCharVerdict]
  · rw [if_neg hsp]
    simp [passVerdict]

/-- Claim C10, witness: twelve single-letter tokens, one hundred percent
of them short, are handled without flagging. -/
theorem short_tokens_repetition_check_safe_witness :
    wordFreq (contentWords shortTokensContent) = [] ∧
    repetitionCheck shortTokensContent = false ∧
    (performBasicValidation shortTokensContent).reasoning ≠
      "Content shows excessive repetition patterns" :=
  short_tokens_repetition_check_safe shortTokensContent
    (by decide) (by decide) (by decide) (by decide) (by decide)
